import Mathlib

/-
Verification of the client-side session/authentication coordinator of the
forenvision front end (frontend/src/services/api.js together with the
auth-state sync in App.jsx).

Modelling conventions:
- localStorage holds two keys, "token" and "user"; we model the store
  together with the other ambient browser effects as a `World` record:
  the two storage slots, the module-level `isLoggingOut` flag, the list of
  user-facing alert messages shown so far, a count of dispatched
  `authChange` events, and the last `window.location.href` assignment.
- the network is an oracle: each request-issuing function takes the HTTP
  status of the response the backend would return.
- the "user" storage slot holds a string; the strings that matter are the
  JSON serializations of identity records (in bijection with `Identity`
  via JSON.stringify / JSON.parse) and the strings on which JSON.parse
  throws. `UserStr` embeds exactly this split, and `jsonParse` is the
  corresponding semantics of JSON.parse on the slot.
- JavaScript truthiness of a nullable string (`if (token)`) is false for
  null and for the empty string; `truthyS` embeds it.
- a thrown JS `Error(msg)` is embedded as `Except.error msg`.
-/

set_option autoImplicit false

namespace Forenvision

/-- Identity record stored by the login flow: id, role, approval and
availability flags, display fields (the fields the spec lists; the
`is_approved` flag is nullable in the code, null meaning pending). -/
structure Identity where
  id : Nat
  role : String
  is_approved : Option Bool
  is_available : Bool
  name : String
  email : String
  deriving Repr, DecidableEq

/-- Contents of the "user" storage slot: either the JSON serialization of
an identity record, or a string on which JSON.parse throws. -/
inductive UserStr where
  | ofIdentity (u : Identity)
  | malformed (s : String)
  deriving Repr, DecidableEq

/-- Semantics of JSON.parse on the "user" slot: serialized identities
parse back to the identity, malformed strings throw a SyntaxError. -/
def jsonParse : UserStr → Except String Identity
  | .ofIdentity u => Except.ok u
  | .malformed s => Except.error ("SyntaxError: Unexpected token in JSON: " ++ s)

/-- JavaScript truthiness of a string read from localStorage: null and the
empty string are falsy. -/
def truthyS : Option String → Bool
  | none => false
  | some s => s != ""

/-- Truthiness of the raw string held in the "user" slot: a serialized
identity object is never the empty string. -/
def UserStr.truthy : UserStr → Bool
  | .ofIdentity _ => true
  | .malformed s => s != ""

/-- Truthiness of the nullable "user" slot. -/
def truthyU : Option UserStr → Bool
  | none => false
  | some us => us.truthy

/-- Ambient browser state touched by api.js: the two localStorage slots,
the module-level isLoggingOut flag, alerts shown so far (in order), the
number of dispatched authChange events, and the last location.href
assignment. -/
structure World where
  token : Option String
  user : Option UserStr
  isLoggingOut : Bool
  alerts : List String
  authChangeEvents : Nat
  location : Option String
  deriving Repr, DecidableEq

/-- BASE constant of api.js. -/
def BASE : String := "http://127.0.0.1:8000"

/-- Helper getToken of api.js: localStorage.getItem with key token. -/
def getToken (w : World) : Option String :=
  w.token

/-- Helper dispatchAuthChange of api.js: fires one authChange event. -/
def dispatchAuthChange (w : World) : World :=
  { w with authChangeEvents := w.authChangeEvents + 1 }

/-- Header list of an outgoing request, in JS-object insertion order. -/
abbrev Headers := List (String × String)

/-- JS object-assignment on a header object: overwrite the value in place
if the key exists, append otherwise. -/
def setHeader : Headers → String → String → Headers
  | [], k, v => [(k, v)]
  | (k0, v0) :: rest, k, v =>
    if k0 = k then (k, v) :: rest else (k0, v0) :: setHeader rest k v

/-- Lookup of a header value by key. -/
def getHeader : Headers → String → Option String
  | [], _ => none
  | (k0, v0) :: rest, k => if k0 = k then some v0 else getHeader rest k

/-- JS object spread: start from the base object and assign every entry of
the update object in order. -/
def spreadHeaders (base upd : Headers) : Headers :=
  List.foldl (fun acc p => setHeader acc p.1 p.2) base upd

/-- Options object accepted by authFetch; only the headers component is
interpreted by the gateway. -/
structure FetchOptions where
  headers : Headers
  deriving Repr, DecidableEq

/-- The dispatched HTTP request: full url and final header object. -/
structure Request where
  url : String
  headers : Headers
  deriving Repr, DecidableEq

/-- The backend response, reduced to its HTTP status. -/
structure Response where
  status : Nat
  deriving Repr, DecidableEq

/-- Result of one gateway call: final browser state, the request that was
dispatched, and either the raw response or the thrown Error message. -/
structure AuthResult where
  world : World
  request : Request
  outcome : Except String Response
  deriving Repr

/-- Alert text of the 401 branch of authFetch. -/
def sessionExpiredAlert : String := "Your session has expired. Please log in again."

/-- Alert text of the 403 branch of authFetch. -/
def sessionOutdatedAlert : String := "Your session is outdated. Please log in again."

/-- Header object built by authFetch: Content-Type json, then the spread
of options.headers over it, then Authorization Bearer token when the
token is truthy (assigned last, so it overwrites any caller value). -/
def buildAuthHeaders (token : Option String) (optHeaders : Headers) : Headers :=
  let hs := spreadHeaders [("Content-Type", "application/json")] optHeaders
  match token with
  | some t => if t != "" then setHeader hs "Authorization" ("Bearer " ++ t) else hs
  | none => hs

/-- authFetch of api.js: read the token, build the headers, dispatch the
request; on status 401 remove both storage slots, dispatch authChange,
alert the expired notice unless isLoggingOut, set location to /login and
throw Error Authentication failed; on status 403 the same with the
outdated notice and Error Access forbidden; otherwise return the raw
response. -/
def authFetch (w : World) (url : String) (opts : FetchOptions) (status : Nat) : AuthResult :=
  let headers := buildAuthHeaders (getToken w) opts.headers
  let req : Request := { url := BASE ++ url, headers := headers }
  if status = 401 then
    { world :=
        { w with
          token := none
          user := none
          authChangeEvents := w.authChangeEvents + 1
          alerts := if w.isLoggingOut then w.alerts else w.alerts ++ [sessionExpiredAlert]
          location := some "/login" }
      request := req
      outcome := Except.error "Authentication failed" }
  else if status = 403 then
    { world :=
        { w with
          token := none
          user := none
          authChangeEvents := w.authChangeEvents + 1
          alerts := if w.isLoggingOut then w.alerts else w.alerts ++ [sessionOutdatedAlert]
          location := some "/login" }
      request := req
      outcome := Except.error "Access forbidden" }
  else
    { world := w, request := req, outcome := Except.ok { status := status } }

/-- Header object built by authFetchFormData: empty except for the
Authorization entry when the token is truthy (no Content-Type, so the
multipart boundary is generated by the browser). -/
def formDataHeaders (token : Option String) : Headers :=
  match token with
  | some t => if t != "" then [("Authorization", "Bearer " ++ t)] else []
  | none => []

/-- authFetchFormData of api.js: headers are only the Authorization entry
when the token is truthy; only status 401 is intercepted (with the same
clear, event, conditional alert, redirect and throw as authFetch); every
other status, 403 included, is returned raw. -/
def authFetchFormData (w : World) (url : String) (status : Nat) : AuthResult :=
  let req : Request := { url := BASE ++ url, headers := formDataHeaders (getToken w) }
  if status = 401 then
    { world :=
        { w with
          token := none
          user := none
          authChangeEvents := w.authChangeEvents + 1
          alerts := if w.isLoggingOut then w.alerts else w.alerts ++ [sessionExpiredAlert]
          location := some "/login" }
      request := req
      outcome := Except.error "Authentication failed" }
  else
    { world := w, request := req, outcome := Except.ok { status := status } }

/-- Body of the successful login response, reduced to what the login flow
stores: the ok flag of the HTTP response, data.token and data.user. -/
structure LoginResponse where
  ok : Bool
  token : String
  user : Identity
  deriving Repr, DecidableEq

/-- login of api.js (storage effect): when the response is ok, store the
token and the serialized user and dispatch one authChange event;
otherwise leave the world untouched. -/
def login (w : World) (resp : LoginResponse) : World :=
  if resp.ok then
    { w with
      token := some resp.token
      user := some (UserStr.ofIdentity resp.user)
      authChangeEvents := w.authChangeEvents + 1 }
  else w

/-- logout of api.js: set the isLoggingOut flag, remove both storage
slots, dispatch one authChange event, navigate to /login, and schedule an
unconditional flag reset after a fixed 1000 ms timeout (the timer firing
is the separate step logoutTimerFire). No alert is shown. -/
def logout (w : World) : World :=
  { w with
    isLoggingOut := true
    token := none
    user := none
    authChangeEvents := w.authChangeEvents + 1
    location := some "/login" }

/-- Firing of the setTimeout callback scheduled by logout: resets the
isLoggingOut flag unconditionally. -/
def logoutTimerFire (w : World) : World :=
  { w with isLoggingOut := false }

/-- getCurrentUser of api.js: read the "user" slot; when it is truthy,
JSON.parse it (a parse failure propagates as a thrown error); when it is
null or empty, return null. -/
def getCurrentUser (w : World) : Except String (Option Identity) :=
  match w.user with
  | none => Except.ok none
  | some us =>
    if us.truthy then (jsonParse us).map some else Except.ok none

/-- A record of caller-supplied fields for updateStoredUser: each field
optionally overrides the stored one (JS shallow object spread over the
fixed identity schema). -/
structure IdentityPatch where
  id : Option Nat
  role : Option String
  is_approved : Option (Option Bool)
  is_available : Option Bool
  name : Option String
  email : Option String
  deriving Repr, DecidableEq

/-- JS shallow spread of a patch over a stored identity: a field present
in the patch wins, every other field keeps the stored value. -/
def spreadUser (u : Identity) (p : IdentityPatch) : Identity :=
  { id := p.id.getD u.id
    role := p.role.getD u.role
    is_approved := p.is_approved.getD u.is_approved
    is_available := p.is_available.getD u.is_available
    name := p.name.getD u.name
    email := p.email.getD u.email }

/-- updateStoredUser of api.js: read the current user (a JSON.parse
failure there propagates); when the current user is truthy, write back
the shallow merge of the patch over it and dispatch one authChange event;
otherwise do nothing. The token slot is never touched. -/
def updateStoredUser (w : World) (p : IdentityPatch) : Except String World :=
  match getCurrentUser w with
  | Except.error e => Except.error e
  | Except.ok none => Except.ok w
  | Except.ok (some u) =>
    Except.ok
      { w with
        user := some (UserStr.ofIdentity (spreadUser u p))
        authChangeEvents := w.authChangeEvents + 1 }

/-- Tri-state auth status derived in App.jsx. -/
structure AuthState where
  isLoggedIn : Bool
  user : Option Identity
  isLoading : Bool
  deriving Repr, DecidableEq

/-- syncAuthState of App.jsx: when both slots are truthy, try to parse
the user; on success the state is logged-in with that user; on a parse
failure both slots are removed and the state is anonymous; when either
slot is null or empty, the state is anonymous and storage is not
modified. Returns the updated world together with the derived state. -/
def syncAuthState (w : World) : World × AuthState :=
  match w.token, w.user with
  | some t, some us =>
    if t != "" && us.truthy then
      match jsonParse us with
      | Except.ok u => (w, { isLoggedIn := true, user := some u, isLoading := false })
      | Except.error _ =>
        ({ w with token := none, user := none },
         { isLoggedIn := false, user := none, isLoading := false })
    else (w, { isLoggedIn := false, user := none, isLoading := false })
  | _, _ => (w, { isLoggedIn := false, user := none, isLoading := false })

/-- JS template-literal rendering of the nullable token in the
investigator functions: null prints as the text null. -/
def jsTemplateToken : Option String → String
  | some t => t
  | none => "null"

/-- getInvestigators of api.js: a direct fetch that always attaches the
Authorization header rendered from the raw localStorage value (so the
literal Bearer null when no token is stored) and returns the response raw
whatever its status; no browser state is touched. -/
def getInvestigators (w : World) (status : Nat) : AuthResult :=
  { world := w
    request :=
      { url := BASE ++ "/api/v1/admin/investigators"
        headers :=
          [("Authorization", "Bearer " ++ jsTemplateToken w.token),
           ("Content-Type", "application/json")] }
    outcome := Except.ok { status := status } }

/-- getInvestigatorDetails of api.js: same direct fetch pattern (note the
doubled slash in the path, present verbatim in the source). -/
def getInvestigatorDetails (w : World) (investigatorId : String) (status : Nat) : AuthResult :=
  { world := w
    request :=
      { url := BASE ++ "/api//v1/admin/investigators/" ++ investigatorId
        headers :=
          [("Authorization", "Bearer " ++ jsTemplateToken w.token),
           ("Content-Type", "application/json")] }
    outcome := Except.ok { status := status } }

/-- updateInvestigator of api.js: same direct fetch pattern as
getInvestigatorDetails, with a PUT body (not modelled). -/
def updateInvestigator (w : World) (investigatorId : String) (status : Nat) : AuthResult :=
  { world := w
    request :=
      { url := BASE ++ "/api//v1/admin/investigators/" ++ investigatorId
        headers :=
          [("Authorization", "Bearer " ++ jsTemplateToken w.token),
           ("Content-Type", "application/json")] }
    outcome := Except.ok { status := status } }

/-- updateInvestigatorAvailability of api.js: same direct fetch pattern,
reading the token through getToken. -/
def updateInvestigatorAvailability (w : World) (status : Nat) : AuthResult :=
  { world := w
    request :=
      { url := BASE ++ "/api/v1/investigator/availability"
        headers :=
          [("Authorization", "Bearer " ++ jsTemplateToken (getToken w)),
           ("Content-Type", "application/json")] }
    outcome := Except.ok { status := status } }

/-- Assigning a header key makes it present with that value. -/
theorem getHeader_setHeader_self (hs : Headers) (k v : String) :
    getHeader (setHeader hs k v) k = some v := by
  induction hs with
  | nil => simp [setHeader, getHeader]
  | cons p rest ih =>
    by_cases h : p.1 = k
    · simp [setHeader, getHeader, h]
    · simp [setHeader, getHeader, h, ih]

/-- Assigning one header key leaves every other key unchanged. -/
theorem getHeader_setHeader_ne (hs : Headers) (k v k0 : String) (h : k0 ≠ k) :
    getHeader (setHeader hs k v) k0 = getHeader hs k0 := by
  have hk : k ≠ k0 := fun e => h e.symm
  induction hs with
  | nil => simp [setHeader, getHeader, hk]
  | cons p rest ih =>
    by_cases hp : p.1 = k
    · simp [setHeader, getHeader, hp, hk]
    · simp [setHeader, getHeader, hp, ih]

/-- Spreading an update object that never mentions a key leaves that key
as in the base object. -/
theorem getHeader_spreadHeaders_of_not_mem (base upd : Headers) (k : String)
    (h : ∀ p ∈ upd, p.1 ≠ k) :
    getHeader (spreadHeaders base upd) k = getHeader base k := by
  induction upd generalizing base with
  | nil => rfl
  | cons p rest ih =>
    have hp : p.1 ≠ k := h p (by simp)
    have hrest : ∀ q ∈ rest, q.1 ≠ k := fun q hq => h q (by simp [hq])
    calc getHeader (spreadHeaders (setHeader base p.1 p.2) rest) k
        = getHeader (setHeader base p.1 p.2) k := ih (setHeader base p.1 p.2) hrest
      _ = getHeader base k := getHeader_setHeader_ne base p.1 p.2 k (fun e => hp e.symm)

/-- A sample identity record used for concrete evaluations. -/
def sampleUser : Identity :=
  { id := 7
    role := "investigator"
    is_approved := some true
    is_available := true
    name := "Dana"
    email := "dana@example.com" }

/-- A sample logged-in world with a clear alert history. -/
def loggedInWorld : World :=
  { token := some "tok123"
    user := some (UserStr.ofIdentity sampleUser)
    isLoggingOut := false
    alerts := []
    authChangeEvents := 0
    location := none }

/-- C1: a gateway call through authFetch that receives status 401 clears
both stored credentials, publishes exactly one session-changed event,
shows exactly one notice (the expired text) unless the logout-intent flag
is set, navigates to the login entry point, and rejects with the error
Authentication failed, which is distinguishable from the 403 error. -/
theorem c1_authFetch_401_handling (w : World) (url : String) (opts : FetchOptions) :
    (authFetch w url opts 401).world.token = none ∧
    (authFetch w url opts 401).world.user = none ∧
    (authFetch w url opts 401).world.authChangeEvents = w.authChangeEvents + 1 ∧
    (authFetch w url opts 401).world.alerts =
      (if w.isLoggingOut then w.alerts else w.alerts ++ [sessionExpiredAlert]) ∧
    (authFetch w url opts 401).world.location = some "/login" ∧
    (authFetch w url opts 401).outcome = Except.error "Authentication failed" ∧
    "Authentication failed" ≠ "Access forbidden" := by
  refine ⟨rfl, rfl, rfl, rfl, rfl, rfl, by decide⟩

/-- C2 counterexample: the claim extends the 403 handling to
authFetchFormData, but on a concrete logged-in world a form-data call that
receives 403 leaves the token in place, shows no notice, publishes no
event, does not navigate, and returns the raw response instead of
rejecting. -/
theorem c2_formdata_403_counterexample :
    (authFetchFormData loggedInWorld "/api/v1/cases/1/evidence" 403).world.token ≠ none ∧
    (authFetchFormData loggedInWorld "/api/v1/cases/1/evidence" 403).world = loggedInWorld ∧
    (authFetchFormData loggedInWorld "/api/v1/cases/1/evidence" 403).outcome =
      Except.ok { status := 403 } := by
  refine ⟨by decide, rfl, rfl⟩

/-- C2 amended: a 403 through authFetch triggers the same handling as 401
(session cleared, event published, notice unless the logout-intent flag
is set, navigation to login) with the error Access forbidden and the
distinct outdated notice text; authFetchFormData, however, intercepts
only 401 and returns a 403 response raw with no side effect. -/
theorem c2_403_handling (w : World) (url : String) (opts : FetchOptions) :
    (authFetch w url opts 403).world.token = none ∧
    (authFetch w url opts 403).world.user = none ∧
    (authFetch w url opts 403).world.authChangeEvents = w.authChangeEvents + 1 ∧
    (authFetch w url opts 403).world.alerts =
      (if w.isLoggingOut then w.alerts else w.alerts ++ [sessionOutdatedAlert]) ∧
    (authFetch w url opts 403).world.location = some "/login" ∧
    (authFetch w url opts 403).outcome = Except.error "Access forbidden" ∧
    sessionOutdatedAlert ≠ sessionExpiredAlert ∧
    (authFetchFormData w url 403).world = w ∧
    (authFetchFormData w url 403).outcome = Except.ok { status := 403 } := by
  refine ⟨rfl, rfl, rfl, rfl, rfl, rfl, by decide, rfl, rfl⟩

/-- A world whose persisted identity is the non-JSON string used by the
spec scenario, with a token still present. -/
def malformedWorld : World :=
  { token := some "tok123"
    user := some (UserStr.malformed "\x7bnot json")
    isLoggingOut := false
    alerts := []
    authChangeEvents := 0
    location := none }

/-- C3 counterexample: with the persisted identity being the string of
the spec scenario, getCurrentUser does not return absent — it propagates
the JSON.parse error (the code calls JSON.parse unguarded), and it purges
nothing. -/
theorem c3_getCurrentUser_counterexample :
    getCurrentUser malformedWorld =
      Except.error ("SyntaxError: Unexpected token in JSON: " ++ "\x7bnot json") ∧
    getCurrentUser malformedWorld ≠ Except.ok none ∧
    malformedWorld.user ≠ none := by
  refine ⟨rfl, fun h => Except.noConfusion h, by decide⟩

/-- C3 amended: on a malformed persisted identity (with a token present),
getCurrentUser propagates the parse error instead of returning absent; it
is the session-state derivation syncAuthState that recovers — it purges
both entries, yields the anonymous state without crashing, and a
getCurrentUser read after the purge returns absent. -/
theorem c3_malformed_identity_recovery (w : World) (t s : String)
    (ht : w.token = some t) (ht0 : t ≠ "")
    (hu : w.user = some (UserStr.malformed s)) (hs : s ≠ "") :
    getCurrentUser w = Except.error ("SyntaxError: Unexpected token in JSON: " ++ s) ∧
    (syncAuthState w).1.token = none ∧
    (syncAuthState w).1.user = none ∧
    (syncAuthState w).2 = { isLoggedIn := false, user := none, isLoading := false } ∧
    getCurrentUser (syncAuthState w).1 = Except.ok none := by
  have hb : (s != "") = true := by simp [hs]
  have htb : (t != "") = true := by simp [ht0]
  refine ⟨?_, ?_, ?_, ?_, ?_⟩ <;>
    simp [getCurrentUser, syncAuthState, ht, hu, UserStr.truthy, jsonParse, hb, htb,
      Except.map]

/-- C3 witness: the amended theorem evaluated on the concrete scenario
world. -/
theorem c3_malformed_identity_recovery_witness :
    getCurrentUser (syncAuthState malformedWorld).1 = Except.ok none :=
  (c3_malformed_identity_recovery malformedWorld "tok123" "\x7bnot json"
    rfl (by decide) rfl (by decide)).2.2.2.2

/-- A world holding a token but no identity: the partial credential state
of claim C4. -/
def partialWorld : World :=
  { token := some "tok123"
    user := none
    isLoggingOut := false
    alerts := []
    authChangeEvents := 0
    location := none }

/-- C4 counterexample: on a partial state (token present, identity
absent) the derivation yields anonymous but does not clear the leftover
token, contrary to the claim that any partial credential is cleared. -/
theorem c4_partial_state_counterexample :
    (syncAuthState partialWorld).2.isLoggedIn = false ∧
    (syncAuthState partialWorld).1.token ≠ none ∧
    (syncAuthState partialWorld).1 = partialWorld := by
  refine ⟨rfl, by decide, rfl⟩

/-- C4 amended: the derivation yields the authenticated state with the
stored identity exactly when both slots are present and non-empty and the
identity parses; when both are present but the identity fails to parse,
both slots are cleared and the state is anonymous; when either slot is
absent or empty, the state is anonymous and storage is left untouched. -/
theorem c4_syncAuthState_derivation (w : World) :
    (∀ t u, w.token = some t → t ≠ "" → w.user = some (UserStr.ofIdentity u) →
      syncAuthState w = (w, { isLoggedIn := true, user := some u, isLoading := false })) ∧
    (∀ t s, w.token = some t → t ≠ "" → w.user = some (UserStr.malformed s) → s ≠ "" →
      syncAuthState w =
        ({ w with token := none, user := none },
         { isLoggedIn := false, user := none, isLoading := false })) ∧
    (truthyS w.token = false ∨ truthyU w.user = false →
      syncAuthState w = (w, { isLoggedIn := false, user := none, isLoading := false })) := by
  refine ⟨?_, ?_, ?_⟩
  · intro t u ht ht0 hu
    have htb : (t != "") = true := by simp [ht0]
    simp [syncAuthState, ht, hu, UserStr.truthy, jsonParse, htb]
  · intro t s ht ht0 hu hs
    have htb : (t != "") = true := by simp [ht0]
    have hb : (s != "") = true := by simp [hs]
    simp [syncAuthState, ht, hu, UserStr.truthy, jsonParse, htb, hb]
  · intro h
    rcases h with h | h
    · match hw : w.token with
      | none =>
        match hu : w.user with
        | none => simp [syncAuthState, hw, hu]
        | some us => simp [syncAuthState, hw, hu]
      | some t =>
        have htb : (t != "") = false := by
          simpa [truthyS, hw] using h
        match hu : w.user with
        | none => simp [syncAuthState, hw, hu]
        | some us => simp [syncAuthState, hw, hu, htb]
    · match hu : w.user with
      | none =>
        match hw : w.token with
        | none => simp [syncAuthState, hw, hu]
        | some t => simp [syncAuthState, hw, hu]
      | some us =>
        have hub : us.truthy = false := by
          simpa [truthyU, hu] using h
        match hw : w.token with
        | none => simp [syncAuthState, hw, hu]
        | some t => simp [syncAuthState, hw, hu, hub]

/-- C4 witness: the amended derivation evaluated on a concrete logged-in
world. -/
theorem c4_syncAuthState_derivation_witness :
    syncAuthState loggedInWorld =
      (loggedInWorld, { isLoggedIn := true, user := some sampleUser, isLoading := false }) :=
  (c4_syncAuthState_derivation loggedInWorld).1 "tok123" sampleUser rfl (by decide) rfl

/-- C5: a self-initiated logout sets the suppression flag, so a 401 on
any request issued before the timeout fires produces zero notices while
the clear and the redirect still occur; once the timer has fired (the
flag is reset unconditionally), a 401 on any subsequent request shows the
notice normally, exactly once. -/
theorem c5_logout_race_guard (w : World) (u1 u2 : String) (o1 o2 : FetchOptions) :
    (authFetch (logout w) u1 o1 401).world.alerts = w.alerts ∧
    (authFetch (logout w) u1 o1 401).world.token = none ∧
    (authFetch (logout w) u1 o1 401).world.user = none ∧
    (authFetch (logout w) u1 o1 401).world.location = some "/login" ∧
    (authFetch (logoutTimerFire (authFetch (logout w) u1 o1 401).world) u2 o2 401).world.alerts =
      w.alerts ++ [sessionExpiredAlert] := by
  refine ⟨rfl, rfl, rfl, rfl, rfl⟩

/-- The request dispatched by authFetch is the same whatever the response
status: base url joined with the path, and the built header object. -/
theorem authFetch_request (w : World) (url : String) (opts : FetchOptions) (status : Nat) :
    (authFetch w url opts status).request =
      { url := BASE ++ url, headers := buildAuthHeaders (getToken w) opts.headers } := by
  by_cases h1 : status = 401
  · simp [authFetch, h1]
  · by_cases h2 : status = 403 <;> simp [authFetch, h1, h2]

/-- The request dispatched by authFetchFormData is the same whatever the
response status. -/
theorem authFetchFormData_request (w : World) (url : String) (status : Nat) :
    (authFetchFormData w url status).request =
      { url := BASE ++ url, headers := formDataHeaders (getToken w) } := by
  by_cases h1 : status = 401 <;> simp [authFetchFormData, h1]

/-- A world with no stored token at all. -/
def noTokenWorld : World :=
  { token := none
    user := none
    isLoggingOut := false
    alerts := []
    authChangeEvents := 0
    location := none }

/-- A world whose stored token is the empty string (falsy in JS). -/
def emptyTokenWorld : World :=
  { token := some ""
    user := none
    isLoggingOut := false
    alerts := []
    authChangeEvents := 0
    location := none }

/-- C6 counterexample: with no stored token, a call whose caller-supplied
options carry an Authorization entry is dispatched WITH that Authorization
header (the gateway only adds, it never strips); and with the stored
token being the empty string, the call is dispatched with no
Authorization header even though a token is stored. -/
theorem c6_authorization_counterexample :
    noTokenWorld.token = none ∧
    getHeader (authFetch noTokenWorld "/api/v1/cases"
        { headers := [("Authorization", "Bearer stale")] } 200).request.headers
      "Authorization" = some "Bearer stale" ∧
    emptyTokenWorld.token = some "" ∧
    getHeader (authFetch emptyTokenWorld "/api/v1/cases" { headers := [] } 200).request.headers
      "Authorization" = none := by
  refine ⟨rfl, by decide, rfl, by decide⟩

/-- C6 amended: whenever a non-empty token T is stored, both gateway
entry points dispatch with Authorization Bearer T (overwriting any
caller-supplied value); when the token is absent or empty the gateway
adds no Authorization header, so an authFetch request carries one only if
the caller-supplied headers contain one and a form-data request carries
none; in every case the request is constructed and dispatched (url equal
to the base joined with the path) with no local error. -/
theorem c6_bearer_attachment (w : World) (url : String) (opts : FetchOptions) (status : Nat) :
    (∀ t, w.token = some t → t ≠ "" →
      getHeader (authFetch w url opts status).request.headers "Authorization" =
        some ("Bearer " ++ t) ∧
      getHeader (authFetchFormData w url status).request.headers "Authorization" =
        some ("Bearer " ++ t)) ∧
    (truthyS w.token = false → (∀ p ∈ opts.headers, p.1 ≠ "Authorization") →
      getHeader (authFetch w url opts status).request.headers "Authorization" = none) ∧
    (truthyS w.token = false →
      getHeader (authFetchFormData w url status).request.headers "Authorization" = none) ∧
    (authFetch w url opts status).request.url = BASE ++ url ∧
    (authFetchFormData w url status).request.url = BASE ++ url := by
  refine ⟨?_, ?_, ?_, ?_, ?_⟩
  · intro t ht ht0
    have htb : (t != "") = true := by simp [ht0]
    constructor
    · rw [authFetch_request]
      simp only [buildAuthHeaders, getToken, ht, htb, if_true]
      exact getHeader_setHeader_self _ _ _
    · rw [authFetchFormData_request]
      simp [formDataHeaders, getToken, ht, htb, getHeader]
  · intro h hmem
    rw [authFetch_request]
    have hbase :
        getHeader (spreadHeaders [("Content-Type", "application/json")] opts.headers)
          "Authorization" = none := by
      rw [getHeader_spreadHeaders_of_not_mem _ _ _ hmem]
      simp [getHeader]
    match hw : w.token with
    | none => simpa [buildAuthHeaders, getToken, hw] using hbase
    | some t =>
      have htb : (t != "") = false := by simpa [truthyS, hw] using h
      simpa [buildAuthHeaders, getToken, hw, htb] using hbase
  · intro h
    rw [authFetchFormData_request]
    match hw : w.token with
    | none => simp [formDataHeaders, getToken, hw, getHeader]
    | some t =>
      have htb : (t != "") = false := by simpa [truthyS, hw] using h
      simp [formDataHeaders, getToken, hw, htb, getHeader]
  · rw [authFetch_request]
  · rw [authFetchFormData_request]

/-- C6 witness: the amended theorem evaluated on a concrete logged-in
world and a concrete path. -/
theorem c6_bearer_attachment_witness :
    getHeader (authFetch loggedInWorld "/api/v1/cases" { headers := [] } 200).request.headers
      "Authorization" = some ("Bearer " ++ "tok123") :=
  ((c6_bearer_attachment loggedInWorld "/api/v1/cases" { headers := [] } 200).1 "tok123"
    rfl (by decide)).1

/-- C7 counterexample: a caller-supplied Content-Type entry in
options.headers overrides the JSON default, so the dispatched request
does not carry the JSON content type. -/
theorem c7_contentType_counterexample :
    getHeader (authFetch loggedInWorld "/api/v1/cases"
        { headers := [("Content-Type", "text/plain")] } 200).request.headers
      "Content-Type" = some "text/plain" ∧
    some "text/plain" ≠ some "application/json" := by
  refine ⟨by decide, by decide⟩

/-- C7 amended: authFetch dispatches with Content-Type application/json
whenever the caller-supplied headers contain no Content-Type entry (a
caller-supplied entry overrides the default), and authFetchFormData never
sets a Content-Type header, for every token state and status. -/
theorem c7_contentType (w : World) (url : String) (opts : FetchOptions) (status : Nat) :
    ((∀ p ∈ opts.headers, p.1 ≠ "Content-Type") →
      getHeader (authFetch w url opts status).request.headers "Content-Type" =
        some "application/json") ∧
    getHeader (authFetchFormData w url status).request.headers "Content-Type" = none := by
  constructor
  · intro hmem
    rw [authFetch_request]
    have hbase :
        getHeader (spreadHeaders [("Content-Type", "application/json")] opts.headers)
          "Content-Type" = some "application/json" := by
      rw [getHeader_spreadHeaders_of_not_mem _ _ _ hmem]
      simp [getHeader]
    match hw : w.token with
    | none => simpa [buildAuthHeaders, getToken, hw] using hbase
    | some t =>
      by_cases htb : (t != "") = true
      · simp only [buildAuthHeaders, getToken, hw, htb, if_true]
        rw [getHeader_setHeader_ne _ _ _ _ (by decide)]
        exact hbase
      · simp only [Bool.not_eq_true] at htb
        simpa [buildAuthHeaders, getToken, hw, htb] using hbase
  · rw [authFetchFormData_request]
    match hw : w.token with
    | none => simp [formDataHeaders, getToken, hw, getHeader]
    | some t =>
      by_cases htb : (t != "") = true
      · simp [formDataHeaders, getToken, hw, htb, getHeader]
      · simp only [Bool.not_eq_true] at htb
        simp [formDataHeaders, getToken, hw, htb, getHeader]

/-- C7 witness: the amended theorem evaluated with empty caller options
on a concrete world. -/
theorem c7_contentType_witness :
    getHeader (authFetch loggedInWorld "/api/v1/cases" { headers := [] } 200).request.headers
      "Content-Type" = some "application/json" :=
  (c7_contentType loggedInWorld "/api/v1/cases" { headers := [] } 200).1 (by simp)

/-- C8: storing a session as the login flow does (response ok, token T,
identity I) immediately gives back exactly T from the token read and a
record equal to I from getCurrentUser, synchronously. -/
theorem c8_login_roundtrip (w : World) (t : String) (u : Identity) :
    getToken (login w { ok := true, token := t, user := u }) = some t ∧
    getCurrentUser (login w { ok := true, token := t, user := u }) = Except.ok (some u) := by
  refine ⟨rfl, rfl⟩

/-- A sample patch used for concrete evaluations of updateStoredUser. -/
def samplePatch : IdentityPatch :=
  { id := none
    role := none
    is_approved := none
    is_available := some false
    name := some "Dana Q"
    email := none }

/-- C9: updateStoredUser shallow-merges the patch over the stored
identity and publishes one session-changed event when an identity is
stored; it is a silent no-op (no write, no event) when no identity is
stored; and every world it returns carries the stored token unchanged. -/
theorem c9_updateStoredUser (w : World) (p : IdentityPatch) :
    (∀ u, w.user = some (UserStr.ofIdentity u) →
      updateStoredUser w p =
        Except.ok
          { w with
            user := some (UserStr.ofIdentity (spreadUser u p))
            authChangeEvents := w.authChangeEvents + 1 }) ∧
    (w.user = none → updateStoredUser w p = Except.ok w) ∧
    (∀ w2, updateStoredUser w p = Except.ok w2 → w2.token = w.token) := by
  refine ⟨?_, ?_, ?_⟩
  · intro u hu
    simp [updateStoredUser, getCurrentUser, hu, UserStr.truthy, jsonParse, Except.map]
  · intro hu
    simp [updateStoredUser, getCurrentUser, hu]
  · intro w2 h
    unfold updateStoredUser at h
    cases hg : getCurrentUser w with
    | error e => rw [hg] at h; exact absurd h (by simp)
    | ok o =>
      cases o with
      | none =>
        rw [hg] at h
        simp only [Except.ok.injEq] at h
        rw [← h]
      | some u =>
        rw [hg] at h
        simp only [Except.ok.injEq] at h
        rw [← h]

/-- C9 witness: the merge branch evaluated on a concrete logged-in world
and a concrete patch. -/
theorem c9_updateStoredUser_witness :
    updateStoredUser loggedInWorld samplePatch =
      Except.ok
        { loggedInWorld with
          user := some (UserStr.ofIdentity (spreadUser sampleUser samplePatch))
          authChangeEvents := loggedInWorld.authChangeEvents + 1 } :=
  (c9_updateStoredUser loggedInWorld samplePatch).1 sampleUser rfl

/-- C10: the four investigator-management functions bypass the gateway:
for every world and every response status (401 and 403 included) they
leave the browser state untouched and hand the response back raw, and
they always attach an Authorization header rendered by JS template
interpolation from the raw stored value — which is the literal text
Bearer null when no token is stored. -/
theorem c10_investigator_bypass (w : World) (status : Nat) (invId : String) :
    (getInvestigators w status).world = w ∧
    (getInvestigators w status).outcome = Except.ok { status := status } ∧
    getHeader (getInvestigators w status).request.headers "Authorization" =
      some ("Bearer " ++ jsTemplateToken w.token) ∧
    (getInvestigatorDetails w invId status).world = w ∧
    (getInvestigatorDetails w invId status).outcome = Except.ok { status := status } ∧
    getHeader (getInvestigatorDetails w invId status).request.headers "Authorization" =
      some ("Bearer " ++ jsTemplateToken w.token) ∧
    (updateInvestigator w invId status).world = w ∧
    (updateInvestigator w invId status).outcome = Except.ok { status := status } ∧
    getHeader (updateInvestigator w invId status).request.headers "Authorization" =
      some ("Bearer " ++ jsTemplateToken w.token) ∧
    (updateInvestigatorAvailability w status).world = w ∧
    (updateInvestigatorAvailability w status).outcome = Except.ok { status := status } ∧
    getHeader (updateInvestigatorAvailability w status).request.headers "Authorization" =
      some ("Bearer " ++ jsTemplateToken w.token) ∧
    jsTemplateToken none = "null" := by
  refine ⟨rfl, rfl, rfl, rfl, rfl, rfl, rfl, rfl, rfl, rfl, rfl, rfl, rfl⟩

end Forenvision
